import Mathlib

/-!
Verification development for the LawGeeks RAG service
(`src/api/core/rag_services.py`).

The service is a thin orchestration layer over three external
collaborators: an embedding client, a Chroma vector index, and a hosted
chat model.  Those collaborators are out of scope for the repository, so
they are embedded as oracle parameters: the vector index is represented
by its full descending-similarity ranking per query (a retriever
configured with `search_kwargs k` returns the first `k` results of that
ranking), and the chat model by a `generate` oracle that receives the
prompt together with the sampling temperature stored in the client.
Python exceptions from any stage are modelled with `Except`; the
sampling temperature is a constant carried unchanged by the code (no
arithmetic is performed on it), so it is embedded as an exact rational.
-/

/-- A retrieved chunk as produced by the vector index: the text payload
plus provenance metadata kept by the index. -/
structure Document where
  page_content : String
  metadata : List (String × String)
deriving Repr, DecidableEq

/-- A runtime Python exception (network failure, quota, malformed
response, ...) surfaced by an external call. -/
structure PyExn where
  msg : String
deriving Repr, DecidableEq

/-- The construction-time error raised by `RAGService.__init__`. -/
inductive PyError where
  | valueError (msg : String)
deriving Repr, DecidableEq

/-- Python truthiness test used by `if not self.api_key:` on the result
of `os.getenv`: `None` and the empty string are falsy. -/
def pyFalsy : Option String → Bool
  | none => true
  | some s => s.isEmpty

/-- Embedding client configuration (external collaborator; its
behaviour is out of scope, only its construction parameters matter). -/
structure GoogleGenerativeAIEmbeddings where
  model : String
  google_api_key : String

/-- The Chroma vector store.  `ranked_search` is the external oracle:
for a query string it yields the stored chunks ranked by descending
similarity, or fails with an exception. -/
structure Chroma where
  persist_directory : String
  embedding_function : GoogleGenerativeAIEmbeddings
  ranked_search : String → Except PyExn (List Document)

/-- A retriever over a vector store with a fixed `k` retrieval policy,
as produced by `vectordb.as_retriever(search_kwargs=\x7b"k": 3\x7d)`. -/
structure VectorStoreRetriever where
  vectordb : Chroma
  k : Nat

/-- `Chroma.as_retriever`: wrap the store with a fixed `k`. -/
def Chroma.as_retriever (db : Chroma) (k : Nat) : VectorStoreRetriever :=
  ⟨db, k⟩

/-- Invoking the retriever: query the index with the query string and
keep the first `k` chunks of the similarity ranking. -/
def VectorStoreRetriever.invoke (r : VectorStoreRetriever) (query : String) :
    Except PyExn (List Document) :=
  Except.map (fun docs => docs.take r.k) (r.vectordb.ranked_search query)

/-- A chat-model response message. -/
structure AIMessage where
  content : String
deriving Repr, DecidableEq

/-- The chat model client.  `generate` is the external oracle standing
for the hosted model: it receives the prompt and the sampling
temperature and produces a message or fails. -/
structure ChatGoogleGenerativeAI where
  model : String
  google_api_key : String
  temperature : ℚ
  generate : String → ℚ → Except PyExn AIMessage

/-- Invoking the chat model passes the temperature fixed at
construction time along with the prompt. -/
def ChatGoogleGenerativeAI.invoke (llm : ChatGoogleGenerativeAI) (prompt : String) :
    Except PyExn AIMessage :=
  llm.generate prompt llm.temperature

/-- `StrOutputParser` extracts the plain text of a chat message. -/
def StrOutputParser.invoke (m : AIMessage) : String :=
  m.content

/-- A prompt template object; holds the raw template text. -/
structure ChatPromptTemplate where
  template : String
deriving Repr, DecidableEq

/-- `ChatPromptTemplate.from_template`. -/
def ChatPromptTemplate.from_template (t : String) : ChatPromptTemplate :=
  ⟨t⟩

/-- Path of the persisted vector database, relative to the API root. -/
def VECTOR_DB_DIR : String := "vector_db"

/-- The preamble of the RAG prompt template, up to and including the
delimiter line that precedes the document section label. -/
def tmplHead : String :=
  "\n        You are \"LawGeeks\", a specialized AI assistant. Your goal is to answer a user\x27s specific question about their legal document, using *only* the provided context.\n        \n        You have been given three pieces of information:\n        1.  **THE USER\x27S DOCUMENT**: The full text of their agreement.\n        2.  **RELEVANT LEGAL CONTEXT**: Snippets from Indian law (e.g., The Contract Act, RERA) that are relevant to the user\x27s question.\n        3.  **THE USER\x27S QUESTION**: The specific question the user asked.\n\n        **INSTRUCTIONS:**\n        1.  First, analyze the **USER\x27S DOCUMENT** to find clauses that relate to the **USER\x27S QUESTION**.\n        2.  Next, use the **RELEVANT LEGAL CONTEXT** to understand the standard legal position or definitions.\n        3.  Combine these insights to provide a clear, simple, and direct answer.\n        4.  If the user\x27s document is silent on the issue, say so.\n        5.  If the user\x27s document *contradicts* the legal context, point this out (e.g., \"Your document states X, which is unusual as the standard legal position is Y...\").\n        6.  **DO NOT** make up information. If the answer cannot be found in the provided texts, state that you cannot answer.\n        7.  **DO NOT** provide legal advice. Frame your answer as \"This clause appears to mean...\" or \"This document states...\".\n\n        ---\n        "

/-- The label opening the document section of the prompt. -/
def docSectionLabel : String := "**THE USER\x27S DOCUMENT:**"

/-- The label opening the retrieved-context section of the prompt. -/
def ragSectionLabel : String := "**RELEVANT LEGAL CONTEXT:**"

/-- The label opening the question section of the prompt. -/
def questionSectionLabel : String := "**THE USER\x27S QUESTION:**"

/-- Newline plus indentation separating a section label from the value
substituted below it. -/
def tmplIndent : String := "\n        "

/-- The delimiter line between two consecutive prompt sections. -/
def tmplSep : String := "\n        ---\n        "

/-- The trailing cue of the prompt template, after the question
section. -/
def tmplTail : String := "\n        ---\n\n        **Your Answer:**\n        "

/-- The raw `rag_prompt_template` string literal of the source,
reassembled from its segments around the three placeholders. -/
def rag_prompt_template : String :=
  tmplHead ++ docSectionLabel ++ tmplIndent ++ "{document_context}" ++
  tmplSep ++ ragSectionLabel ++ tmplIndent ++ "{rag_context}" ++
  tmplSep ++ questionSectionLabel ++ tmplIndent ++ "{question}" ++ tmplTail

/-- Substituting the three named fields into the fixed template.  Each
placeholder occurs exactly once in the template and the template
contains no other braces, so Python simultaneous format substitution
equals splicing the values between the literal segments; substituted
values are never rescanned for placeholders. -/
def formatRagPrompt (document_context rag_context question : String) : String :=
  tmplHead ++ docSectionLabel ++ tmplIndent ++ document_context ++
  tmplSep ++ ragSectionLabel ++ tmplIndent ++ rag_context ++
  tmplSep ++ questionSectionLabel ++ tmplIndent ++ question ++ tmplTail

/-- The RAG service with its construction-time fields. -/
structure RAGService where
  api_key : String
  embeddings : GoogleGenerativeAIEmbeddings
  vectordb : Chroma
  retriever : VectorStoreRetriever
  llm : ChatGoogleGenerativeAI
  rag_prompt : ChatPromptTemplate

/-- `RAGService.__init__`.  `env` is `os.getenv`; `search` and `gen`
are the external oracles injected into the Chroma store and the chat
client.  Raising `ValueError` is modelled by returning `Except.error`;
a successful construction returns the fully configured service. -/
def RAGService.init (env : String → Option String)
    (search : String → Except PyExn (List Document))
    (gen : String → ℚ → Except PyExn AIMessage) :
    Except PyError RAGService :=
  let api_key := env "GOOGLE_API_KEY"
  if pyFalsy api_key then
    Except.error (PyError.valueError "GOOGLE_API_KEY not set.")
  else
    let key := api_key.getD ""
    let embeddings : GoogleGenerativeAIEmbeddings := ⟨"models/embedding-001", key⟩
    let vectordb : Chroma := ⟨VECTOR_DB_DIR, embeddings, search⟩
    Except.ok
      ⟨key, embeddings, vectordb, vectordb.as_retriever 3,
        ⟨"models/gemini-pro-latest", key, 3/10, gen⟩,
        ChatPromptTemplate.from_template rag_prompt_template⟩

/-- `RAGService._format_docs`: join the retrieved chunk texts with the
fixed separator. -/
def RAGService._format_docs (_self : RAGService) (docs : List Document) : String :=
  String.intercalate "\n\n---\n\n" (docs.map Document.page_content)

/-- The keyed input dictionary handed to `rag_chain.invoke`. -/
structure ChainInput where
  question : String
  document_context : String

/-- The `rag_context` branch of the chain mapping:
`itemgetter("question") | self.retriever | self._format_docs`. -/
def RAGService.chain_rag_context (self : RAGService) (inp : ChainInput) :
    Except PyExn String :=
  Except.map self._format_docs (self.retriever.invoke inp.question)

/-- The whole `rag_chain`: build the keyed mapping (retrieved context,
question and document text passed through), format the prompt, call the
model, parse its output as text.  A failure at any stage aborts the
chain with that exception. -/
def RAGService.rag_chain_invoke (self : RAGService) (inp : ChainInput) :
    Except PyExn String :=
  Except.bind (self.chain_rag_context inp) (fun rag_context =>
    Except.map StrOutputParser.invoke
      (self.llm.invoke (formatRagPrompt inp.document_context rag_context inp.question)))

/-- The fixed user-facing fallback answer. -/
def fallbackAnswer : String :=
  "I encountered an error trying to find the answer. Please try rephrasing your question."

/-- `RAGService.answer_user_query`.  Returns the (unchanged) service
state, the response string, and the list of log lines printed; any
exception escaping the chain is caught at this boundary, logged, and
converted to the fixed fallback string. -/
def RAGService.answer_user_query (self : RAGService)
    (document_text user_question : String) :
    RAGService × String × List String :=
  match self.rag_chain_invoke ⟨user_question, document_text⟩ with
  | Except.ok response => (self, response, [])
  | Except.error e => (self, fallbackAnswer, ["Error in RAG chain: " ++ e.msg])

/-- The substring relation used to state prompt-containment claims:
`needle` occurs verbatim somewhere inside `haystack`. -/
def occursIn (needle haystack : String) : Prop :=
  ∃ s t, haystack = s ++ needle ++ t

/-! ### Stub oracles and a concrete service, used by witnesses -/

/-- Stub environment holding a non-empty credential. -/
def stubEnv : String → Option String := fun _ => some "test-key"

/-- Stub environment with the credential absent. -/
def envAbsent : String → Option String := fun _ => none

/-- Stub environment with the credential set to the empty string. -/
def envEmptyKey : String → Option String := fun _ => some ""

/-- Stub similarity index: four fixed chunks for every query, ranked. -/
def stubRanked : String → Except PyExn (List Document) := fun _ =>
  Except.ok [⟨"c1", []⟩, ⟨"c2", []⟩, ⟨"c3", []⟩, ⟨"c4", []⟩]

/-- Stub chat model: echoes the prompt back. -/
def stubGenerate : String → ℚ → Except PyExn AIMessage := fun p _ =>
  Except.ok ⟨p⟩

/-- The concrete service obtained by constructing against the stubs. -/
def svcStub : RAGService :=
  ⟨"test-key", ⟨"models/embedding-001", "test-key"⟩,
    ⟨VECTOR_DB_DIR, ⟨"models/embedding-001", "test-key"⟩, stubRanked⟩,
    ⟨⟨VECTOR_DB_DIR, ⟨"models/embedding-001", "test-key"⟩, stubRanked⟩, 3⟩,
    ⟨"models/gemini-pro-latest", "test-key", 3/10, stubGenerate⟩,
    ChatPromptTemplate.from_template rag_prompt_template⟩

/-! ### Helper lemmas about `String.intercalate` -/

/-- Peeling a left factor off the accumulator of `String.intercalate.go`. -/
theorem intercalate_go_append (s : String) (ds : List String) :
    ∀ acc x : String,
      String.intercalate.go (acc ++ x) s ds = acc ++ String.intercalate.go x s ds := by
  induction ds with
  | nil => intro acc x; rfl
  | cons a as ih =>
    intro acc x
    show String.intercalate.go (acc ++ x ++ s ++ a) s as =
      acc ++ String.intercalate.go (x ++ s ++ a) s as
    rw [String.append_assoc acc x s, String.append_assoc acc (x ++ s) a]
    exact ih acc ((x ++ s) ++ a)

/-- `String.intercalate` on a list with at least two elements emits the
head, one separator, and the intercalation of the tail. -/
theorem intercalate_cons_cons (s a b : String) (ds : List String) :
    String.intercalate s (a :: b :: ds) = a ++ s ++ String.intercalate s (b :: ds) := by
  show String.intercalate.go a s (b :: ds) = a ++ s ++ String.intercalate.go b s ds
  have h1 : String.intercalate.go a s (b :: ds) =
      String.intercalate.go ((a ++ s) ++ b) s ds := rfl
  rw [h1, intercalate_go_append s ds (a ++ s) b]

/-- Constructing against the stubs succeeds and yields `svcStub`. -/
theorem init_stub_ok :
    RAGService.init stubEnv stubRanked stubGenerate = Except.ok svcStub := rfl

/-! ### Claims about `_format_docs` -/

/-- Claim C3: `_format_docs` concatenates the chunk texts with the
exact separator between consecutive chunks and nothing else: the empty
sequence yields the empty string, a two-chunk sequence yields the two
texts around one separator, and in general each additional leading
chunk contributes its text followed by one separator. -/
theorem format_docs_separator_exact (svc : RAGService) :
    svc._format_docs [] = "" ∧
    (∀ a b : Document,
      svc._format_docs [a, b] = a.page_content ++ "\n\n---\n\n" ++ b.page_content) ∧
    (∀ (a b : Document) (ds : List Document),
      svc._format_docs (a :: b :: ds) =
        a.page_content ++ "\n\n---\n\n" ++ svc._format_docs (b :: ds)) := by
  refine ⟨rfl, fun a b => rfl, fun a b ds => ?_⟩
  show String.intercalate "\n\n---\n\n"
      (a.page_content :: b.page_content :: ds.map Document.page_content) = _
  rw [intercalate_cons_cons]
  rfl

/-- Claim C7: `_format_docs` is the identity on singleton inputs; no
separator is emitted. -/
theorem format_docs_singleton_id (svc : RAGService) (d : Document) :
    svc._format_docs [d] = d.page_content := rfl

/-- Claim C8: the output of `_format_docs` depends only on the
`page_content` of each chunk; provenance metadata is discarded. -/
theorem format_docs_content_only (svc₁ svc₂ : RAGService)
    (ds₁ ds₂ : List Document)
    (h : ds₁.map Document.page_content = ds₂.map Document.page_content) :
    svc₁._format_docs ds₁ = svc₂._format_docs ds₂ := by
  unfold RAGService._format_docs
  rw [h]

/-- Witness for C8: two one-chunk lists with identical text but
different provenance metadata format identically. -/
theorem format_docs_content_only_w :
    ([⟨"A", [("source", "x.pdf")]⟩] : List Document).map Document.page_content =
      ([⟨"A", [("source", "y.pdf")]⟩] : List Document).map Document.page_content ∧
    svcStub._format_docs [⟨"A", [("source", "x.pdf")]⟩] =
      svcStub._format_docs [⟨"A", [("source", "y.pdf")]⟩] :=
  ⟨rfl, format_docs_content_only svcStub svcStub
    [⟨"A", [("source", "x.pdf")]⟩] [⟨"A", [("source", "y.pdf")]⟩] rfl⟩

/-! ### Claims about construction -/

/-- Claim C2: a missing credential makes construction fail immediately
with the `ValueError`, no service object is produced, and the failure
is not the runtime fallback string. -/
theorem init_missing_key_raises (env : String → Option String)
    (search : String → Except PyExn (List Document))
    (gen : String → ℚ → Except PyExn AIMessage)
    (h : env "GOOGLE_API_KEY" = none) :
    RAGService.init env search gen =
      Except.error (PyError.valueError "GOOGLE_API_KEY not set.") ∧
    (∀ svc, RAGService.init env search gen ≠ Except.ok svc) ∧
    "GOOGLE_API_KEY not set." ≠ fallbackAnswer := by
  have h1 : RAGService.init env search gen =
      Except.error (PyError.valueError "GOOGLE_API_KEY not set.") := by
    unfold RAGService.init
    rw [h]
    rfl
  refine ⟨h1, fun svc hc => ?_, by decide⟩
  rw [h1] at hc
  exact Except.noConfusion hc

/-- Witness for C2: against an environment with no credential,
construction returns exactly the `ValueError`. -/
theorem init_missing_key_raises_w :
    envAbsent "GOOGLE_API_KEY" = none ∧
    RAGService.init envAbsent stubRanked stubGenerate =
      Except.error (PyError.valueError "GOOGLE_API_KEY not set.") :=
  ⟨rfl, (init_missing_key_raises envAbsent stubRanked stubGenerate rfl).1⟩

/-- Claim C9: an empty-string credential is rejected exactly as an
absent one, with the same `ValueError`. -/
theorem init_empty_key_raises (env : String → Option String)
    (search : String → Except PyExn (List Document))
    (gen : String → ℚ → Except PyExn AIMessage)
    (h : env "GOOGLE_API_KEY" = some "") :
    RAGService.init env search gen =
      Except.error (PyError.valueError "GOOGLE_API_KEY not set.") ∧
    RAGService.init env search gen =
      RAGService.init (fun _ => none) search gen := by
  have h1 : RAGService.init env search gen =
      Except.error (PyError.valueError "GOOGLE_API_KEY not set.") := by
    unfold RAGService.init
    rw [h]
    rfl
  exact ⟨h1, h1.trans rfl⟩

/-- Witness for C9: construction against an environment holding the
empty string as the credential returns exactly the `ValueError`. -/
theorem init_empty_key_raises_w :
    envEmptyKey "GOOGLE_API_KEY" = some "" ∧
    RAGService.init envEmptyKey stubRanked stubGenerate =
      Except.error (PyError.valueError "GOOGLE_API_KEY not set.") :=
  ⟨rfl, (init_empty_key_raises envEmptyKey stubRanked stubGenerate rfl).1⟩

/-! ### Claims about the answer pipeline -/

/-- Claim C1: `answer_user_query` never lets an exception of any chain
stage escape: whatever the oracles do, it returns either the parsed
model text with no log line, or exactly the fixed fallback string with
the underlying cause logged; no other outcome exists. -/
theorem answer_user_query_boundary (svc : RAGService)
    (document_text user_question : String) :
    (∃ r, svc.rag_chain_invoke ⟨user_question, document_text⟩ = Except.ok r ∧
      svc.answer_user_query document_text user_question = (svc, r, ([] : List String))) ∨
    (∃ e, svc.rag_chain_invoke ⟨user_question, document_text⟩ = Except.error e ∧
      svc.answer_user_query document_text user_question =
        (svc, fallbackAnswer, ["Error in RAG chain: " ++ e.msg])) := by
  cases hc : svc.rag_chain_invoke ⟨user_question, document_text⟩ with
  | ok r =>
    exact Or.inl ⟨r, rfl, by unfold RAGService.answer_user_query; rw [hc]⟩
  | error e =>
    exact Or.inr ⟨e, rfl, by unfold RAGService.answer_user_query; rw [hc]⟩

/-- Claim C10: `answer_user_query` never mutates the service: on both
the success and the fallback path every field is unchanged. -/
theorem answer_user_query_frame (svc : RAGService) (d q : String) :
    (svc.answer_user_query d q).1 = svc ∧
    (svc.answer_user_query d q).1.api_key = svc.api_key ∧
    (svc.answer_user_query d q).1.embeddings = svc.embeddings ∧
    (svc.answer_user_query d q).1.vectordb = svc.vectordb ∧
    (svc.answer_user_query d q).1.retriever = svc.retriever ∧
    (svc.answer_user_query d q).1.llm = svc.llm ∧
    (svc.answer_user_query d q).1.rag_prompt = svc.rag_prompt := by
  have h1 : (svc.answer_user_query d q).1 = svc := by
    unfold RAGService.answer_user_query
    cases hc : svc.rag_chain_invoke ⟨q, d⟩ <;> rfl
  exact ⟨h1, by rw [h1], by rw [h1], by rw [h1], by rw [h1], by rw [h1], by rw [h1]⟩

/-- Claim C4: the retriever produced by construction has `k = 3`; for
any query it returns the first 3 chunks of the similarity ranking (so
at most 3, in ranked order); and the retrieved-context stage of the
chain depends only on the question, never on the document text. -/
theorem retrieval_question_only_k3 (env : String → Option String)
    (search : String → Except PyExn (List Document))
    (gen : String → ℚ → Except PyExn AIMessage) (svc : RAGService)
    (h : RAGService.init env search gen = Except.ok svc) :
    svc.retriever.k = 3 ∧
    (∀ q full, search q = Except.ok full →
      svc.retriever.invoke q = Except.ok (full.take 3) ∧ (full.take 3).length ≤ 3) ∧
    (∀ q d₁ d₂, svc.chain_rag_context ⟨q, d₁⟩ = svc.chain_rag_context ⟨q, d₂⟩) := by
  simp only [RAGService.init] at h
  split at h
  · exact absurd h (fun hc => Except.noConfusion hc)
  · injection h with h'
    subst h'
    refine ⟨rfl, fun q full hq => ?_, fun q d₁ d₂ => rfl⟩
    constructor
    · simp [VectorStoreRetriever.invoke, Chroma.as_retriever, hq, Except.map]
    · exact List.length_take_le 3 full

/-- Witness for C4: against the stub index holding four ranked chunks,
the constructed retriever has `k = 3` and returns exactly the first
three chunks of the ranking. -/
theorem retrieval_question_only_k3_w :
    RAGService.init stubEnv stubRanked stubGenerate = Except.ok svcStub ∧
    svcStub.retriever.k = 3 ∧
    svcStub.retriever.invoke "q" =
      Except.ok [⟨"c1", []⟩, ⟨"c2", []⟩, ⟨"c3", []⟩] := by
  have hth := retrieval_question_only_k3 stubEnv stubRanked stubGenerate svcStub init_stub_ok
  refine ⟨init_stub_ok, hth.1, ?_⟩
  have h2 := (hth.2.1 "q" [⟨"c1", []⟩, ⟨"c2", []⟩, ⟨"c3", []⟩, ⟨"c4", []⟩] rfl).1
  simpa using h2

/-- Claim C5: the assembled prompt contains the document text, the
retrieved context, and the question verbatim as substrings, each placed
immediately below its designated section label. -/
theorem prompt_sections_verbatim (document_context rag_context question : String) :
    occursIn document_context (formatRagPrompt document_context rag_context question) ∧
    occursIn rag_context (formatRagPrompt document_context rag_context question) ∧
    occursIn question (formatRagPrompt document_context rag_context question) ∧
    occursIn (docSectionLabel ++ tmplIndent ++ document_context)
      (formatRagPrompt document_context rag_context question) ∧
    occursIn (ragSectionLabel ++ tmplIndent ++ rag_context)
      (formatRagPrompt document_context rag_context question) ∧
    occursIn (questionSectionLabel ++ tmplIndent ++ question)
      (formatRagPrompt document_context rag_context question) := by
  refine ⟨⟨tmplHead ++ docSectionLabel ++ tmplIndent,
      tmplSep ++ ragSectionLabel ++ tmplIndent ++ rag_context ++
        tmplSep ++ questionSectionLabel ++ tmplIndent ++ question ++ tmplTail, ?_⟩,
    ⟨tmplHead ++ docSectionLabel ++ tmplIndent ++ document_context ++
        tmplSep ++ ragSectionLabel ++ tmplIndent,
      tmplSep ++ questionSectionLabel ++ tmplIndent ++ question ++ tmplTail, ?_⟩,
    ⟨tmplHead ++ docSectionLabel ++ tmplIndent ++ document_context ++
        tmplSep ++ ragSectionLabel ++ tmplIndent ++ rag_context ++
        tmplSep ++ questionSectionLabel ++ tmplIndent,
      tmplTail, ?_⟩,
    ⟨tmplHead,
      tmplSep ++ ragSectionLabel ++ tmplIndent ++ rag_context ++
        tmplSep ++ questionSectionLabel ++ tmplIndent ++ question ++ tmplTail, ?_⟩,
    ⟨tmplHead ++ docSectionLabel ++ tmplIndent ++ document_context ++ tmplSep,
      tmplSep ++ questionSectionLabel ++ tmplIndent ++ question ++ tmplTail, ?_⟩,
    ⟨tmplHead ++ docSectionLabel ++ tmplIndent ++ document_context ++
        tmplSep ++ ragSectionLabel ++ tmplIndent ++ rag_context ++ tmplSep,
      tmplTail, ?_⟩⟩ <;>
  simp [formatRagPrompt, String.append_assoc]

/-- Claim C6: construction fixes the sampling temperature at 3/10;
every model invocation of the chain passes exactly that temperature to
the generation oracle. -/
theorem llm_temperature_fixed (env : String → Option String)
    (search : String → Except PyExn (List Document))
    (gen : String → ℚ → Except PyExn AIMessage) (svc : RAGService)
    (h : RAGService.init env search gen = Except.ok svc) :
    svc.llm.temperature = 3/10 ∧
    (∀ prompt, svc.llm.invoke prompt = gen prompt (3/10)) ∧
    (∀ inp : ChainInput, svc.rag_chain_invoke inp =
      Except.bind (svc.chain_rag_context inp) (fun rag_context =>
        Except.map AIMessage.content
          (gen (formatRagPrompt inp.document_context rag_context inp.question) (3/10)))) := by
  simp only [RAGService.init] at h
  split at h
  · exact absurd h (fun hc => Except.noConfusion hc)
  · injection h with h'
    subst h'
    exact ⟨rfl, fun prompt => rfl, fun inp => rfl⟩

/-- Witness for C6: the stub-constructed service has temperature 3/10
and calls the generation oracle with it. -/
theorem llm_temperature_fixed_w :
    RAGService.init stubEnv stubRanked stubGenerate = Except.ok svcStub ∧
    svcStub.llm.temperature = 3/10 ∧
    svcStub.llm.invoke "p" = stubGenerate "p" (3/10) := by
  have hth := llm_temperature_fixed stubEnv stubRanked stubGenerate svcStub init_stub_ok
  exact ⟨init_stub_ok, hth.1, hth.2.1 "p"⟩
